import Mathlib

/-!
Verification of the ChainGuardian backend transaction-intake pipeline
(`app/main.py`, `app/database.py`) against its natural-language design.

Modelling conventions:
* Python floats are modelled as exact rationals (`ℚ`); every float literal in
  the source (0.1, 0.8, 50.0) is representable and every comparison in the
  claims agrees between the two models.
* Python dicts are modelled as association lists `List (String × Value)` in
  insertion order, mirroring the dict literals of the source.
* `datetime.now().isoformat()` is modelled by three clock samples carried in
  the environment, one per call site in `process_transaction`.
* Exceptions raised by the persistence layer are modelled by optional error
  messages in the environment; the `except` block of `process_transaction`
  becomes an `Except` value carrying the HTTP 500 response.
* `json.dumps(fs, sort_keys=True)` is modelled by a serializer emitting the
  keys of the fraud-signature dict in sorted order with the default
  separators.  Numbers are rendered by a fixed deterministic function of the
  rational value (Python renders floats via `repr`, likewise a deterministic
  function of the value).
* SHA-256 is implemented concretely over `Nat` words reduced mod 2^32.
-/

namespace ChainGuardian

/-- JSON-like values stored in the modelled documents. -/
inductive Value where
  | vnull : Value
  | vbool : Bool → Value
  | vstr : String → Value
  | vint : ℤ → Value
  | vfloat : ℚ → Value
  | vlist : List Value → Value
  | vdict : List (String × Value) → Value

/-- A persisted document: a Python dict in insertion order. -/
abbrev Doc := List (String × Value)

/- ### SHA-256 over byte lists (bytes as `Nat < 256`, words as `Nat < 2^32`) -/

/-- Reduction of a natural number to a 32-bit word. -/
def w32 (n : Nat) : Nat := n % 4294967296

/-- Right rotation of a 32-bit word. -/
def rotr (x n : Nat) : Nat := w32 ((x >>> n) ||| (x <<< (32 - n)))

/-- SHA-256 big sigma-0. -/
def bigSigma0 (x : Nat) : Nat := (rotr x 2) ^^^ (rotr x 13) ^^^ (rotr x 22)

/-- SHA-256 big sigma-1. -/
def bigSigma1 (x : Nat) : Nat := (rotr x 6) ^^^ (rotr x 11) ^^^ (rotr x 25)

/-- SHA-256 small sigma-0. -/
def smallSigma0 (x : Nat) : Nat := (rotr x 7) ^^^ (rotr x 18) ^^^ (x >>> 3)

/-- SHA-256 small sigma-1. -/
def smallSigma1 (x : Nat) : Nat := (rotr x 17) ^^^ (rotr x 19) ^^^ (x >>> 10)

/-- SHA-256 round constants (decimal values of the standard table). -/
def sha256K : List Nat :=
  [1116352408, 1899447441, 3049323471, 3921009573, 961987163, 1508970993,
   2453635748, 2870763221, 3624381080, 310598401, 607225278, 1426881987,
   1925078388, 2162078206, 2614888103, 3248222580, 3835390401, 4022224774,
   264347078, 604807628, 770255983, 1249150122, 1555081692, 1996064986,
   2554220882, 2821834349, 2952996808, 3210313671, 3336571891, 3584528711,
   113926993, 338241895, 666307205, 773529912, 1294757372, 1396182291,
   1695183700, 1986661051, 2177026350, 2456956037, 2730485921, 2820302411,
   3259730800, 3345764771, 3516065817, 3600352804, 4094571909, 275423344,
   430227734, 506948616, 659060556, 883997877, 958139571, 1322822218,
   1537002063, 1747873779, 1955562222, 2024104815, 2227730452, 2361852424,
   2428436474, 2756734187, 3204031479, 3329325298]

/-- SHA-256 initial hash state (decimal values of the standard table). -/
def sha256Init : List Nat :=
  [1779033703, 3144134277, 1013904242, 2773480762,
   1359893119, 2600822924, 528734635, 1541459225]

/-- Extend a 16-word message block by `k` further schedule words. -/
def extendSchedule : List Nat → Nat → List Nat
  | ws, 0 => ws
  | ws, Nat.succ k =>
      let n := ws.length
      let w := w32 (smallSigma1 (ws.getD (n - 2) 0) + ws.getD (n - 7) 0 +
                    smallSigma0 (ws.getD (n - 15) 0) + ws.getD (n - 16) 0)
      extendSchedule (ws ++ [w]) k

/-- One SHA-256 compression round on an 8-word state. -/
def compressStep (st : List Nat) (k w : Nat) : List Nat :=
  match st with
  | [a, b, c, d, e, f, g, h] =>
      let s1 := bigSigma1 e
      let ch := (e &&& f) ^^^ ((e ^^^ 0xffffffff) &&& g)
      let temp1 := w32 (h + s1 + ch + k + w)
      let s0 := bigSigma0 a
      let maj := (a &&& b) ^^^ (a &&& c) ^^^ (b &&& c)
      let temp2 := w32 (s0 + maj)
      [w32 (temp1 + temp2), a, b, c, w32 (d + temp1), e, f, g]
  | other => other

/-- Process one 16-word chunk, updating the running hash state. -/
def compressChunk (h : List Nat) (chunk : List Nat) : List Nat :=
  let ws := extendSchedule chunk 48
  let st := (sha256K.zip ws).foldl (fun st kw => compressStep st kw.1 kw.2) h
  (h.zip st).map fun p => w32 (p.1 + p.2)

/-- Big-endian conversion of a byte list to 32-bit words. -/
def bytesToWords : List Nat → List Nat
  | a :: b :: c :: d :: rest => (a * 16777216 + b * 65536 + c * 256 + d) :: bytesToWords rest
  | _ => []

/-- The eight big-endian bytes of a 64-bit length. -/
def lenBytes64 (n : Nat) : List Nat :=
  [(n >>> 56) % 256, (n >>> 48) % 256, (n >>> 40) % 256, (n >>> 32) % 256,
   (n >>> 24) % 256, (n >>> 16) % 256, (n >>> 8) % 256, n % 256]

/-- SHA-256 padding of a byte message. -/
def pad (msg : List Nat) : List Nat :=
  let len := msg.length
  let padZeros := (119 - len % 64) % 64
  msg ++ [128] ++ List.replicate padZeros 0 ++ lenBytes64 (len * 8)

/-- Split a word list into 16-word chunks. -/
def toChunks (ws : List Nat) : List (List Nat) :=
  match ws with
  | [] => []
  | w :: rest => (w :: rest.take 15) :: toChunks (rest.drop 15)
  termination_by ws.length
  decreasing_by simp [List.length_drop]; omega

/-- Lower-case hex digit. -/
def hexDigit (n : Nat) : Char :=
  if n < 10 then Char.ofNat (48 + n) else Char.ofNat (87 + n)

/-- Eight lower-case hex digits of a 32-bit word. -/
def toHex8 (n : Nat) : String :=
  String.mk ((List.range 8).map fun i => hexDigit ((n >>> ((7 - i) * 4)) % 16))

/-- UTF-8 encoding of one character as bytes. -/
def encodeChar (c : Char) : List Nat :=
  let n := c.toNat
  if n < 128 then [n]
  else if n < 2048 then [192 + n / 64, 128 + n % 64]
  else if n < 65536 then [224 + n / 4096, 128 + (n / 64) % 64, 128 + n % 64]
  else [240 + n / 262144, 128 + (n / 4096) % 64, 128 + (n / 64) % 64, 128 + n % 64]

/-- UTF-8 encoding of a string as bytes. -/
def utf8Bytes (s : String) : List Nat := (s.data.map encodeChar).flatten

/-- SHA-256 of a string, as lower-case fixed-length hex (the model of
`hashlib.sha256(s.encode()).hexdigest()`). -/
def sha256hex (s : String) : String :=
  let chunks := toChunks (bytesToWords (pad (utf8Bytes s)))
  let hs := chunks.foldl compressChunk sha256Init
  String.join (hs.map toHex8)

/- ### Canonical serialization (`json.dumps(fraud_signature, sort_keys=True)`) -/

/-- JSON string escaping for one character (quote and backslash; the
fields serialized by the pipeline contain no control characters). -/
def escapeChar (c : Char) : String :=
  if c = '"' then "\\\"" else if c = '\\' then "\\\\" else String.singleton c

/-- JSON rendering of a string, in quotes. -/
def renderStr (s : String) : String :=
  "\"" ++ String.join (s.data.map escapeChar) ++ "\""

/-- Deterministic rendering of a numeric value.  Python serializes floats via
`repr`, a deterministic function of the value; the model renders the rational
in lowest terms, likewise a deterministic function of the value. -/
def renderNum (q : ℚ) : String :=
  toString q.num ++ "/" ++ toString q.den

/-- Insertion into a key-sorted score list. -/
def insertScore (kv : String × ℚ) : List (String × ℚ) → List (String × ℚ)
  | [] => [kv]
  | x :: xs => if kv.1 < x.1 then kv :: x :: xs else x :: insertScore kv xs

/-- Sort a score dict by key (the nested `sort_keys=True` on `model_scores`). -/
def sortScores : List (String × ℚ) → List (String × ℚ)
  | [] => []
  | x :: xs => insertScore x (sortScores xs)

/-- Comma-separated rendering of the model-score entries. -/
def renderScores : List (String × ℚ) → String
  | [] => ""
  | [kv] => renderStr kv.1 ++ ": " ++ renderNum kv.2
  | kv :: rest => renderStr kv.1 ++ ": " ++ renderNum kv.2 ++ ", " ++ renderScores rest

/-- Comma-separated rendering of the top-feature names. -/
def renderFeatures : List String → String
  | [] => ""
  | [s] => renderStr s
  | s :: rest => renderStr s ++ ", " ++ renderFeatures rest

/-- Oracle explanation payload: `predict` returns
`explanation = \x7b'top_features': [...], 'model_scores': \x7b...\x7d\x7d`
(shape fixed by the fallback literal at `main.py:113`); feature names are
strings and model scores map model names to numeric scores. -/
structure Explanation where
  topFeatures : List String
  modelScores : List (String × ℚ)

/-- Serialization of the explanation dict with keys in sorted order
(`model_scores` < `top_features` lexicographically), default separators. -/
def dumpsExplanation (e : Explanation) : String :=
  "\x7b\"model_scores\": \x7b" ++ renderScores (sortScores e.modelScores) ++
  "\x7d, \"top_features\": [" ++ renderFeatures e.topFeatures ++ "]\x7d"

/-- The transient FraudSignature tuple built at `main.py:136-143`. -/
structure FraudSignature where
  txHash : String
  flaggedAddress : String
  riskScore : ℚ
  timestamp : String
  modelVersion : String
  explanation : Explanation

/-- Serialization of the fraud-signature dict with its six keys in sorted
order (`explanation` < `flaggedAddress` < `modelVersion` < `riskScore` <
`timestamp` < `txHash`), default separators — the model of
`json.dumps(fraud_signature, sort_keys=True)`. -/
def dumpsFraudSignature (fs : FraudSignature) : String :=
  "\x7b\"explanation\": " ++ dumpsExplanation fs.explanation ++
  ", \"flaggedAddress\": " ++ renderStr fs.flaggedAddress ++
  ", \"modelVersion\": " ++ renderStr fs.modelVersion ++
  ", \"riskScore\": " ++ renderNum fs.riskScore ++
  ", \"timestamp\": " ++ renderStr fs.timestamp ++
  ", \"txHash\": " ++ renderStr fs.txHash ++ "\x7d"

/-- The Signature Deriver (`main.py:145-147`):
`hashlib.sha256(json.dumps(fraud_signature, sort_keys=True).encode()).hexdigest()`. -/
def derive (fs : FraudSignature) : String :=
  sha256hex (dumpsFraudSignature fs)

/- ### Data model of the pipeline -/

/-- The pydantic request model `Transaction` (`main.py:61-68`); absent
optional fields take the declared defaults. -/
structure Transaction where
  txHash : String
  from_address : String
  to_address : String
  amount : ℚ
  timestamp : Option String := none
  gas_price : Option ℚ := some 50
  gas_used : Option ℤ := some 21000

/-- Oracle output shape (`predict` / the fallback literal at `main.py:110-116`). -/
structure Prediction where
  risk_score : ℚ
  label : String
  explanation : Explanation
  model_version : String
  model_hash : String

/-- The fallback assessment substituted when the ML engine is unavailable
(`main.py:110-116`). -/
def fallbackPrediction : Prediction :=
  ⟨0.1, "normal", ⟨[], []⟩, "N/A", "N/A"⟩

/-- The persistence store: the two MongoDB collections written by the
pipeline, as lists of documents in insertion order. -/
structure DB where
  transactions : List Doc
  alerts : List Doc

/-- Environment of one intake call: oracle availability and behaviour, the
three `datetime.now().isoformat()` samples taken during the call
(`main.py:100`, `main.py:128`, `main.py:159`), and the outcome of the two
persistence writes (`some msg` models `insert_one` raising with message
`msg`; `Database.save_transaction` / `save_alert` re-raise). -/
structure Env where
  ml_available : Bool
  predict : Doc → Prediction
  now1 : String
  now2 : String
  now3 : String
  tx_write_error : Option String
  alert_write_error : Option String

/-- Value of an optional float field in a dict. -/
def optFloat : Option ℚ → Value
  | none => .vnull
  | some q => .vfloat q

/-- Value of an optional int field in a dict. -/
def optInt : Option ℤ → Value
  | none => .vnull
  | some n => .vint n

/-- Python `tx.timestamp or datetime.now().isoformat()` (`main.py:100`):
`or` takes the right operand for `None` AND for the falsy empty string. -/
def pyOrTimestamp : Option String → String → String
  | none, now => now
  | some s, now => if s = "" then now else s

/-- The normalized transaction context `tx_data` (`main.py:96-103`) passed to
the oracle. -/
def txData (env : Env) (tx : Transaction) : Doc :=
  [("from", .vstr tx.from_address),
   ("to", .vstr tx.to_address),
   ("amount", .vfloat tx.amount),
   ("timestamp", .vstr (pyOrTimestamp tx.timestamp env.now1)),
   ("gas_price", optFloat tx.gas_price),
   ("gas_used", optInt tx.gas_used)]

/-- The prediction used by the call: the oracle's output when available,
the fallback otherwise (`main.py:106-116`). -/
def effectivePrediction (env : Env) (tx : Transaction) : Prediction :=
  if env.ml_available then env.predict (txData env tx) else fallbackPrediction

/-- The persisted transaction document `tx_record` (`main.py:119-129`). -/
def txRecord (env : Env) (tx : Transaction) : Doc :=
  let p := effectivePrediction env tx
  [("txHash", .vstr tx.txHash),
   ("from", .vstr tx.from_address),
   ("to", .vstr tx.to_address),
   ("amount", .vfloat tx.amount),
   ("timestamp", .vstr (pyOrTimestamp tx.timestamp env.now1)),
   ("riskScore", .vfloat p.risk_score),
   ("label", .vstr p.label),
   ("modelVersion", .vstr p.model_version),
   ("processed_at", .vstr env.now2)]

/-- The Severity Classifier: `severity = 2 if prediction['risk_score'] >= 0.8
else 1` (`main.py:149`). -/
def classify (risk_score : ℚ) : ℤ :=
  if risk_score ≥ 0.8 then 2 else 1

/-- The FraudSignature built on the suspicious path (`main.py:136-143`). -/
def fraudSig (env : Env) (tx : Transaction) : FraudSignature :=
  let p := effectivePrediction env tx
  ⟨tx.txHash, tx.from_address, p.risk_score, pyOrTimestamp tx.timestamp env.now1,
   p.model_version, p.explanation⟩

/-- Embedding of the explanation payload as a dict value, in the insertion
order of the source literal (`top_features` then `model_scores`). -/
def Explanation.toValue (e : Explanation) : Value :=
  .vdict [("top_features", .vlist (e.topFeatures.map .vstr)),
          ("model_scores", .vdict (e.modelScores.map fun p => (p.1, Value.vfloat p.2)))]

/-- The persisted alert document `alert_record` (`main.py:152-161`). -/
def alertRecord (env : Env) (tx : Transaction) : Doc :=
  let p := effectivePrediction env tx
  [("sigHash", .vstr (derive (fraudSig env tx))),
   ("txHash", .vstr tx.txHash),
   ("flaggedAddress", .vstr tx.from_address),
   ("riskScore", .vfloat p.risk_score),
   ("severity", .vint (classify p.risk_score)),
   ("explanation", p.explanation.toValue),
   ("timestamp", .vstr env.now3),
   ("status", .vstr "active")]

/-- The HTTP error surfaced by the catch-all handler
(`raise HTTPException(status_code=500, detail=str(e))`, `main.py:179-181`). -/
structure HTTPError where
  status : Nat
  detail : String
deriving DecidableEq

/-- Result of one intake call: the store after the call, the trace of
Signature Deriver invocations, and the HTTP response (`main.py:169-177`)
or the surfaced error. -/
structure Outcome where
  db : DB
  deriveCalls : List FraudSignature
  response : Except HTTPError Doc

/-- The orchestrator `process_transaction` (`main.py:90-181`): normalize,
predict (with fallback), persist the transaction record, and on the
`"suspicious"` label derive the signature, classify severity and persist the
alert record; any raised persistence error surfaces as HTTP 500. -/
def process_transaction (env : Env) (tx : Transaction) (db : DB) : Outcome :=
  let prediction := effectivePrediction env tx
  match env.tx_write_error with
  | some msg => ⟨db, [], .error ⟨500, msg⟩⟩
  | none =>
    let db1 : DB := ⟨db.transactions ++ [txRecord env tx], db.alerts⟩
    if prediction.label = "suspicious" then
      let fs := fraudSig env tx
      let signature_hash := derive fs
      match env.alert_write_error with
      | some msg => ⟨db1, [fs], .error ⟨500, msg⟩⟩
      | none =>
        ⟨⟨db1.transactions, db1.alerts ++ [alertRecord env tx]⟩, [fs],
         .ok [("success", .vbool true),
              ("txHash", .vstr tx.txHash),
              ("riskScore", .vfloat prediction.risk_score),
              ("label", .vstr prediction.label),
              ("explanation", prediction.explanation.toValue),
              ("alertRegistered", .vbool true),
              ("signatureHash", .vstr signature_hash)]⟩
    else
      ⟨db1, [],
       .ok [("success", .vbool true),
            ("txHash", .vstr tx.txHash),
            ("riskScore", .vfloat prediction.risk_score),
            ("label", .vstr prediction.label),
            ("explanation", prediction.explanation.toValue),
            ("alertRegistered", .vbool false),
            ("signatureHash", Value.vnull)]⟩

/- ### Statistics Aggregator (`database.py:94-123`) -/

/-- Predicate of the Mongo query `\x7b'label': 'suspicious'\x7d`. -/
def labelIsSuspicious (r : Doc) : Bool :=
  match List.lookup "label" r with
  | some (Value.vstr s) => s == "suspicious"
  | _ => false

/-- Predicate of the Mongo query `\x7b'status': 'active'\x7d`. -/
def statusIsActive (r : Doc) : Bool :=
  match List.lookup "status" r with
  | some (Value.vstr s) => s == "active"
  | _ => false

/-- Rounding to the nearest integer, ties to even (Python `round`). -/
def roundHalfEven (q : ℚ) : ℤ :=
  let f := Rat.floor q
  let frac := q - f
  if frac < 1 / 2 then f
  else if 1 / 2 < frac then f + 1
  else if f % 2 = 0 then f else f + 1

/-- Python `round(x, 2)` in the exact-rational model. -/
def pyRound2 (q : ℚ) : ℚ :=
  (roundHalfEven (q * 100) : ℚ) / 100

/-- The derived statistics record (`database.py:106-111`). -/
structure Stats where
  totalTx : Nat
  fraudDetected : Nat
  accuracy : ℚ
  activeAlerts : Nat
deriving DecidableEq

/-- `Database.get_statistics` (`database.py:94-123`): counts, the accuracy
formula guarded against division by zero, rounding to two decimals; any
error while reading the store is caught and the all-zero record returned.
`read_ok = false` models the store raising on a count. -/
def get_statistics (db : DB) (read_ok : Bool) : Stats :=
  if read_ok then
    let total_txs := db.transactions.length
    let fraud_detected := (db.transactions.filter labelIsSuspicious).length
    let active_alerts := (db.alerts.filter statusIsActive).length
    let accuracy : ℚ :=
      if total_txs > 0 then
        (((total_txs : ℚ) - (fraud_detected : ℚ)) / (total_txs : ℚ)) * 100
      else 0
    ⟨total_txs, fraud_detected, pyRound2 accuracy, active_alerts⟩
  else ⟨0, 0, 0, 0⟩

/- ### Concrete fixtures for witnesses and counterexamples -/

/-- The empty store. -/
def emptyDB : DB := ⟨[], []⟩

/-- A concrete normal oracle assessment. -/
def normalPrediction : Prediction := ⟨0.1, "normal", ⟨[], []⟩, "v1", "mh"⟩

/-- A concrete suspicious oracle assessment. -/
def suspiciousPrediction : Prediction :=
  ⟨0.95, "suspicious", ⟨["amount"], [("isolation", 0.9)]⟩, "v1", "mh"⟩

/-- Oracle that always returns the normal assessment. -/
def prNormal : Doc → Prediction := fun _ => normalPrediction

/-- Oracle that always returns the suspicious assessment. -/
def prSuspicious : Doc → Prediction := fun _ => suspiciousPrediction

/-- A concrete intake request using the declared field defaults. -/
def sampleTx : Transaction :=
  { txHash := "0xabc", from_address := "0x1", to_address := "0x2", amount := 10 }

/-- A concrete intake request whose timestamp is the empty string. -/
def emptyTsTx : Transaction :=
  { txHash := "0xabc", from_address := "0x1", to_address := "0x2", amount := 10,
    timestamp := some "" }

/-- Environment with a working oracle flagging everything, both writes succeed. -/
def envSusW : Env := ⟨true, prSuspicious, "T1", "T2", "T3", none, none⟩

/-- Environment with a working oracle flagging nothing, both writes succeed. -/
def envNormW : Env := ⟨true, prNormal, "T1", "T2", "T3", none, none⟩

/-- Environment where the transaction write raises. -/
def envTxWriteFail : Env :=
  ⟨true, prSuspicious, "T1", "T2", "T3", some "write failed", none⟩

/-- Environment where the alert write raises after the transaction write. -/
def envAlertWriteFail : Env :=
  ⟨true, prSuspicious, "T1", "T2", "T3", none, some "write failed"⟩

/-- Transaction documents with a normal / suspicious label, for statistics. -/
def normalTxDoc : Doc := [("txHash", .vstr "t"), ("label", .vstr "normal")]

/-- Transaction document carrying the suspicious label. -/
def suspiciousTxDoc : Doc := [("txHash", .vstr "s"), ("label", .vstr "suspicious")]

/-- A store with 100 transactions of which 5 are labelled suspicious. -/
def db100 : DB := ⟨List.replicate 95 normalTxDoc ++ List.replicate 5 suspiciousTxDoc, []⟩

/- ### Claims -/

/-- Helper: the executable `Rat.floor` agrees with the mathematical floor. -/
lemma ratFloor_eq_intFloor (q : ℚ) : Rat.floor q = ⌊q⌋ := by
  rw [Rat.floor_def', Rat.floor_def]

/-- Helper: rounding an integer value changes nothing. -/
lemma roundHalfEven_intCast (z : ℤ) : roundHalfEven ((z : ℚ)) = z := by
  simp only [roundHalfEven]
  rw [ratFloor_eq_intFloor, Int.floor_intCast]
  norm_num

/-- Helper: two-decimal rounding of an integer value changes nothing. -/
lemma pyRound2_intCast (z : ℤ) : pyRound2 ((z : ℚ)) = (z : ℚ) := by
  simp only [pyRound2]
  have h : ((z : ℚ)) * 100 = (((z * 100 : ℤ)) : ℚ) := by push_cast; ring
  rw [h, roundHalfEven_intCast]
  push_cast
  field_simp

/-- Helper: two-decimal rounding of zero is zero. -/
lemma pyRound2_zero : pyRound2 0 = 0 := by
  rw [show (0 : ℚ) = ((0 : ℤ) : ℚ) by norm_num, pyRound2_intCast]

/-- Helper: the aggregator on the empty store yields the all-zero record. -/
lemma get_statistics_empty : get_statistics emptyDB true = ⟨0, 0, 0, 0⟩ := by
  show (⟨0, 0, pyRound2 0, 0⟩ : Stats) = ⟨0, 0, 0, 0⟩
  rw [pyRound2_zero]

/-- Helper: the aggregator on 100 transactions with 5 flagged yields 95. -/
lemma get_statistics_db100 : get_statistics db100 true = ⟨100, 5, 95, 0⟩ := by
  show (⟨100, 5, pyRound2 ((((100 : ℕ) : ℚ) - ((5 : ℕ) : ℚ)) / ((100 : ℕ) : ℚ) * 100), 0⟩ :
    Stats) = ⟨100, 5, 95, 0⟩
  simp only [Stats.mk.injEq]
  refine ⟨by trivial, by trivial, ?_, by trivial⟩
  have harg : (((100 : ℕ) : ℚ) - ((5 : ℕ) : ℚ)) / ((100 : ℕ) : ℚ) * 100 = ((95 : ℤ) : ℚ) := by
    norm_num
  rw [harg, pyRound2_intCast]
  norm_num

/-- C2: the Signature Deriver is deterministic — two FraudSignature tuples
that are field-wise equal produce identical hex digests, independently of
when the derivation runs (the digest is a pure function of the tuple). -/
theorem derive_deterministic (a b : FraudSignature)
    (h1 : a.txHash = b.txHash) (h2 : a.flaggedAddress = b.flaggedAddress)
    (h3 : a.riskScore = b.riskScore) (h4 : a.timestamp = b.timestamp)
    (h5 : a.modelVersion = b.modelVersion) (h6 : a.explanation = b.explanation) :
    derive a = derive b := by
  have hab : a = b := by cases a; cases b; simp_all
  rw [hab]

/-- Witness for C2 at two field-wise equal concrete tuples. -/
theorem derive_deterministic_witness :
    derive ⟨"0xabc", "0x1", 0.95, "T1", "v1", ⟨["amount"], [("isolation", 0.9)]⟩⟩ =
      derive ⟨"0xabc", "0x1", 0.95, "T1", "v1", ⟨["amount"], [("isolation", 0.9)]⟩⟩ :=
  derive_deterministic _ _ rfl rfl rfl rfl rfl rfl

/-- C4: the Severity Classifier is a pure total function of the risk score,
returning tier 2 exactly when the score is at least 0.8 and tier 1
otherwise, with the stated values at 0.79, 0.8, 1.0 and 0.0. -/
theorem classify_threshold (r : ℚ) :
    (classify r = 2 ↔ 0.8 ≤ r) ∧ (classify r = 1 ↔ r < 0.8) ∧
    classify 0.79 = 1 ∧ classify 0.8 = 2 ∧ classify 1 = 2 ∧ classify 0 = 1 := by
  refine ⟨?_, ?_, by norm_num [classify], by norm_num [classify],
    by norm_num [classify], by norm_num [classify]⟩ <;>
    by_cases h : (0.8 : ℚ) ≤ r <;>
      simp [classify, ge_iff_le, h, not_le.mp, lt_iff_not_ge]

/-- Witness for C4 at the concrete score 0.9. -/
theorem classify_threshold_witness :
    (classify 0.9 = 2 ↔ (0.8 : ℚ) ≤ 0.9) ∧ (classify 0.9 = 1 ↔ (0.9 : ℚ) < 0.8) ∧
    classify 0.79 = 1 ∧ classify 0.8 = 2 ∧ classify 1 = 2 ∧ classify 0 = 1 :=
  classify_threshold 0.9

/-- C1: on every intake call whose oracle label is `"suspicious"` and whose
two persistence writes succeed, both the transaction record and the alert
record are persisted, and the `signatureHash` of the returned result equals
the `sigHash` stored in the persisted alert record exactly (both are the
derived digest of the FraudSignature). -/
theorem alert_invariant (ml : Bool) (pr : Doc → Prediction) (n1 n2 n3 : String)
    (tx : Transaction) (db : DB)
    (hp : (effectivePrediction ⟨ml, pr, n1, n2, n3, none, none⟩ tx).label = "suspicious") :
    (process_transaction ⟨ml, pr, n1, n2, n3, none, none⟩ tx db).db.transactions =
      db.transactions ++ [txRecord ⟨ml, pr, n1, n2, n3, none, none⟩ tx] ∧
    (process_transaction ⟨ml, pr, n1, n2, n3, none, none⟩ tx db).db.alerts =
      db.alerts ++ [alertRecord ⟨ml, pr, n1, n2, n3, none, none⟩ tx] ∧
    List.lookup "sigHash" (alertRecord ⟨ml, pr, n1, n2, n3, none, none⟩ tx) =
      some (.vstr (derive (fraudSig ⟨ml, pr, n1, n2, n3, none, none⟩ tx))) ∧
    ∃ res, (process_transaction ⟨ml, pr, n1, n2, n3, none, none⟩ tx db).response = .ok res ∧
      List.lookup "signatureHash" res =
        some (.vstr (derive (fraudSig ⟨ml, pr, n1, n2, n3, none, none⟩ tx))) := by
  unfold process_transaction
  dsimp only
  rw [if_pos hp]
  exact ⟨rfl, rfl, rfl, _, rfl, rfl⟩

/-- Witness for C1 with an always-suspicious oracle on the empty store. -/
theorem alert_invariant_witness :
    (process_transaction envSusW sampleTx emptyDB).db.transactions =
      emptyDB.transactions ++ [txRecord envSusW sampleTx] ∧
    (process_transaction envSusW sampleTx emptyDB).db.alerts =
      emptyDB.alerts ++ [alertRecord envSusW sampleTx] ∧
    List.lookup "sigHash" (alertRecord envSusW sampleTx) =
      some (.vstr (derive (fraudSig envSusW sampleTx))) ∧
    ∃ res, (process_transaction envSusW sampleTx emptyDB).response = .ok res ∧
      List.lookup "signatureHash" res = some (.vstr (derive (fraudSig envSusW sampleTx))) :=
  alert_invariant true prSuspicious "T1" "T2" "T3" sampleTx emptyDB rfl

/-- C3: on every intake call whose oracle label is not `"suspicious"` (with
the transaction write succeeding), the Signature Deriver is never invoked, no
alert record is persisted, and the response carries `alertRegistered = false`
and `signatureHash = null`. -/
theorem no_alert_invariant (ml : Bool) (pr : Doc → Prediction) (n1 n2 n3 : String)
    (ae : Option String) (tx : Transaction) (db : DB)
    (hp : (effectivePrediction ⟨ml, pr, n1, n2, n3, none, ae⟩ tx).label ≠ "suspicious") :
    (process_transaction ⟨ml, pr, n1, n2, n3, none, ae⟩ tx db).deriveCalls = [] ∧
    (process_transaction ⟨ml, pr, n1, n2, n3, none, ae⟩ tx db).db.alerts = db.alerts ∧
    ∃ res, (process_transaction ⟨ml, pr, n1, n2, n3, none, ae⟩ tx db).response = .ok res ∧
      List.lookup "alertRegistered" res = some (.vbool false) ∧
      List.lookup "signatureHash" res = some Value.vnull := by
  unfold process_transaction
  dsimp only
  rw [if_neg hp]
  exact ⟨rfl, rfl, _, rfl, rfl, rfl⟩

/-- Witness for C3 with an always-normal oracle on the empty store. -/
theorem no_alert_invariant_witness :
    (process_transaction envNormW sampleTx emptyDB).deriveCalls = [] ∧
    (process_transaction envNormW sampleTx emptyDB).db.alerts = emptyDB.alerts ∧
    ∃ res, (process_transaction envNormW sampleTx emptyDB).response = .ok res ∧
      List.lookup "alertRegistered" res = some (.vbool false) ∧
      List.lookup "signatureHash" res = some Value.vnull :=
  no_alert_invariant true prNormal "T1" "T2" "T3" none sampleTx emptyDB (by decide)

/-- C5: on every intake call made while the ML engine is unavailable (with
the transaction write succeeding), the fixed fallback assessment
(riskScore 0.1, label "normal", empty explanation, modelVersion "N/A") is
substituted, no alert is derived or persisted, and a successful response is
returned to the caller. -/
theorem oracle_unavailable_fallback (pr : Doc → Prediction) (n1 n2 n3 : String)
    (ae : Option String) (tx : Transaction) (db : DB) :
    effectivePrediction ⟨false, pr, n1, n2, n3, none, ae⟩ tx = fallbackPrediction ∧
    fallbackPrediction.risk_score = 0.1 ∧
    fallbackPrediction.label = "normal" ∧
    fallbackPrediction.explanation = ⟨[], []⟩ ∧
    fallbackPrediction.model_version = "N/A" ∧
    (process_transaction ⟨false, pr, n1, n2, n3, none, ae⟩ tx db).deriveCalls = [] ∧
    (process_transaction ⟨false, pr, n1, n2, n3, none, ae⟩ tx db).db.alerts = db.alerts ∧
    ∃ res, (process_transaction ⟨false, pr, n1, n2, n3, none, ae⟩ tx db).response = .ok res ∧
      List.lookup "success" res = some (.vbool true) ∧
      List.lookup "riskScore" res = some (.vfloat 0.1) ∧
      List.lookup "label" res = some (.vstr "normal") ∧
      List.lookup "alertRegistered" res = some (.vbool false) ∧
      List.lookup "signatureHash" res = some Value.vnull := by
  unfold process_transaction
  dsimp only
  rw [if_neg (by
    rw [show (effectivePrediction ⟨false, pr, n1, n2, n3, none, ae⟩ tx).label = "normal"
      from rfl]
    decide)]
  exact ⟨rfl, rfl, rfl, rfl, rfl, rfl, rfl, _, rfl, rfl, rfl, rfl, rfl, rfl⟩

/-- C10: the timestamp default applies to every falsy value, not only an
absent one — an empty-string timestamp is replaced by the current time, and
that replacement is the timestamp of the oracle context, of the persisted
transaction record, and of the FraudSignature tuple. -/
theorem timestamp_empty_string_default (ml : Bool) (pr : Doc → Prediction)
    (n1 n2 n3 : String) (ae : Option String) (tx : Transaction) (db : DB)
    (hts : tx.timestamp = some "") :
    pyOrTimestamp tx.timestamp n1 = n1 ∧
    List.lookup "timestamp" (txData ⟨ml, pr, n1, n2, n3, none, ae⟩ tx) =
      some (.vstr n1) ∧
    List.lookup "timestamp" (txRecord ⟨ml, pr, n1, n2, n3, none, ae⟩ tx) =
      some (.vstr n1) ∧
    (fraudSig ⟨ml, pr, n1, n2, n3, none, ae⟩ tx).timestamp = n1 ∧
    (process_transaction ⟨ml, pr, n1, n2, n3, none, ae⟩ tx db).db.transactions =
      db.transactions ++ [txRecord ⟨ml, pr, n1, n2, n3, none, ae⟩ tx] := by
  have h0 : pyOrTimestamp tx.timestamp n1 = n1 := by
    rw [hts]; rfl
  refine ⟨h0, ?_, ?_, ?_, ?_⟩
  · simp only [txData, h0]; rfl
  · simp only [txRecord, h0]; rfl
  · simp only [fraudSig, h0]
  · unfold process_transaction
    dsimp only
    by_cases h : (effectivePrediction ⟨ml, pr, n1, n2, n3, none, ae⟩ tx).label = "suspicious"
    · rw [if_pos h]
      cases ae <;> rfl
    · rw [if_neg h]

/-- Witness for C10 at a concrete request carrying the empty timestamp. -/
theorem timestamp_empty_string_default_witness :
    pyOrTimestamp emptyTsTx.timestamp "T1" = "T1" ∧
    List.lookup "timestamp" (txData envNormW emptyTsTx) = some (.vstr "T1") ∧
    List.lookup "timestamp" (txRecord envNormW emptyTsTx) = some (.vstr "T1") ∧
    (fraudSig envNormW emptyTsTx).timestamp = "T1" ∧
    (process_transaction envNormW emptyTsTx emptyDB).db.transactions =
      emptyDB.transactions ++ [txRecord envNormW emptyTsTx] :=
  timestamp_empty_string_default true prNormal "T1" "T2" "T3" none emptyTsTx emptyDB rfl

/-- C6 counterexample: a transaction-write failure and an alert-write failure
raising the same exception message produce byte-identical HTTP responses
(both `500` with the message as detail), even though only in the second case
the transaction record is durably stored — the partial-failure state is not
reported distinctly from a transaction-write failure. -/
theorem failure_modes_not_distinct_cex :
    (process_transaction envTxWriteFail sampleTx emptyDB).response =
      (process_transaction envAlertWriteFail sampleTx emptyDB).response ∧
    (process_transaction envTxWriteFail sampleTx emptyDB).db.transactions.length = 0 ∧
    (process_transaction envAlertWriteFail sampleTx emptyDB).db.transactions.length = 1 ∧
    (process_transaction envAlertWriteFail sampleTx emptyDB).db.alerts.length = 0 :=
  ⟨rfl, rfl, rfl, rfl⟩

/-- C6 amended: an alert-write failure after a successful transaction write
surfaces as HTTP 500 carrying the exception message, with the transaction
record persisted and no alert record — but this is the same response shape
as a transaction-write failure with the same message, so the two failure
kinds are distinguishable only through the incidental message text. -/
theorem alert_write_failure_surfaces_500 (ml : Bool) (pr : Doc → Prediction)
    (n1 n2 n3 msg : String) (tx : Transaction) (db : DB)
    (hp : (effectivePrediction ⟨ml, pr, n1, n2, n3, none, some msg⟩ tx).label = "suspicious") :
    (process_transaction ⟨ml, pr, n1, n2, n3, none, some msg⟩ tx db).response =
      .error ⟨500, msg⟩ ∧
    (process_transaction ⟨ml, pr, n1, n2, n3, none, some msg⟩ tx db).db.transactions =
      db.transactions ++ [txRecord ⟨ml, pr, n1, n2, n3, none, some msg⟩ tx] ∧
    (process_transaction ⟨ml, pr, n1, n2, n3, none, some msg⟩ tx db).db.alerts = db.alerts ∧
    (process_transaction ⟨ml, pr, n1, n2, n3, some msg, none⟩ tx db).response =
      .error ⟨500, msg⟩ := by
  refine ⟨?_, ?_, ?_, rfl⟩ <;>
    · unfold process_transaction
      dsimp only
      rw [if_pos hp]

/-- Witness for the amended C6 at a concrete suspicious call. -/
theorem alert_write_failure_surfaces_500_witness :
    (process_transaction envAlertWriteFail sampleTx emptyDB).response =
      .error ⟨500, "write failed"⟩ ∧
    (process_transaction envAlertWriteFail sampleTx emptyDB).db.transactions =
      emptyDB.transactions ++ [txRecord envAlertWriteFail sampleTx] ∧
    (process_transaction envAlertWriteFail sampleTx emptyDB).db.alerts = emptyDB.alerts ∧
    (process_transaction envTxWriteFail sampleTx emptyDB).response =
      .error ⟨500, "write failed"⟩ :=
  alert_write_failure_surfaces_500 true prSuspicious "T1" "T2" "T3" "write failed"
    sampleTx emptyDB rfl

/-- C7 counterexample: at a concrete intake call whose request omits the gas
fields (so the pydantic defaults 50.0 and 21000 apply), the persisted
transaction record contains neither a `gasPrice`/`gas_price` nor a
`gasUsed`/`gas_used` field at all — the gas metadata never reaches the
transaction record built at `main.py:119-129`. -/
theorem tx_record_gas_fields_cex :
    sampleTx.gas_price = some 50 ∧
    sampleTx.gas_used = some 21000 ∧
    (process_transaction envNormW sampleTx emptyDB).db.transactions =
      [txRecord envNormW sampleTx] ∧
    List.lookup "gasPrice" (txRecord envNormW sampleTx) = none ∧
    List.lookup "gas_price" (txRecord envNormW sampleTx) = none ∧
    List.lookup "gasUsed" (txRecord envNormW sampleTx) = none ∧
    List.lookup "gas_used" (txRecord envNormW sampleTx) = none :=
  ⟨rfl, rfl, rfl, rfl, rfl, rfl, rfl⟩

/-- C7 amended: the caller-supplied gas values (with the declared defaults
50.0 and 21000 applying when the fields are absent) are carried by the
normalized transaction context passed to the risk oracle; the persisted
transaction record contains no gas fields. -/
theorem gas_defaults_in_context (env : Env) (tx : Transaction) :
    List.lookup "gas_price" (txData env tx) = some (optFloat tx.gas_price) ∧
    List.lookup "gas_used" (txData env tx) = some (optInt tx.gas_used) ∧
    List.lookup "gas_price" (txData env
      { txHash := tx.txHash, from_address := tx.from_address,
        to_address := tx.to_address, amount := tx.amount }) = some (.vfloat 50) ∧
    List.lookup "gas_used" (txData env
      { txHash := tx.txHash, from_address := tx.from_address,
        to_address := tx.to_address, amount := tx.amount }) = some (.vint 21000) ∧
    List.lookup "gas_price" (txRecord env tx) = none ∧
    List.lookup "gasPrice" (txRecord env tx) = none ∧
    List.lookup "gas_used" (txRecord env tx) = none ∧
    List.lookup "gasUsed" (txRecord env tx) = none :=
  ⟨rfl, rfl, rfl, rfl, rfl, rfl, rfl, rfl⟩

/-- C8: the Statistics Aggregator computes
`accuracy = (totalTx - fraudDetected) / totalTx * 100` rounded to two
decimal places when the store is non-empty and 0 when it is empty; a store
of 100 transactions with 5 flagged yields accuracy 95, and the empty store
yields the all-zero record. -/
theorem get_statistics_accuracy (db : DB) :
    (get_statistics db true).totalTx = db.transactions.length ∧
    (get_statistics db true).fraudDetected =
      (db.transactions.filter labelIsSuspicious).length ∧
    (get_statistics db true).activeAlerts = (db.alerts.filter statusIsActive).length ∧
    (get_statistics db true).accuracy =
      (if 0 < db.transactions.length then
        pyRound2 ((((db.transactions.length : ℚ) -
          ((db.transactions.filter labelIsSuspicious).length : ℚ)) /
            (db.transactions.length : ℚ)) * 100)
      else 0) ∧
    get_statistics db100 true = ⟨100, 5, 95, 0⟩ ∧
    get_statistics emptyDB true = ⟨0, 0, 0, 0⟩ := by
  refine ⟨rfl, rfl, rfl, ?_, get_statistics_db100, get_statistics_empty⟩
  show pyRound2 (if 0 < db.transactions.length then
      (((db.transactions.length : ℚ) -
        ((db.transactions.filter labelIsSuspicious).length : ℚ)) /
          (db.transactions.length : ℚ)) * 100
    else 0) = _
  by_cases h : 0 < db.transactions.length
  · rw [if_pos h, if_pos h]
  · rw [if_neg h, if_neg h]
    exact pyRound2_zero

/-- C9: the Statistics Aggregator never raises — when reading any count from
the store fails, the error is caught and the all-zero record returned, which
is exactly what the empty store yields, so a failing store is
indistinguishable from an empty one. -/
theorem get_statistics_read_failure (db : DB) :
    get_statistics db false = ⟨0, 0, 0, 0⟩ ∧
    get_statistics db false = get_statistics emptyDB true :=
  ⟨rfl, get_statistics_empty.symm⟩

/-- Witness for C5 at a concrete call with the ML engine disabled. -/
theorem oracle_unavailable_fallback_witness :
    effectivePrediction ⟨false, prNormal, "T1", "T2", "T3", none, none⟩ sampleTx =
      fallbackPrediction ∧
    fallbackPrediction.risk_score = 0.1 ∧
    fallbackPrediction.label = "normal" ∧
    fallbackPrediction.explanation = ⟨[], []⟩ ∧
    fallbackPrediction.model_version = "N/A" ∧
    (process_transaction ⟨false, prNormal, "T1", "T2", "T3", none, none⟩ sampleTx
      emptyDB).deriveCalls = [] ∧
    (process_transaction ⟨false, prNormal, "T1", "T2", "T3", none, none⟩ sampleTx
      emptyDB).db.alerts = emptyDB.alerts ∧
    ∃ res, (process_transaction ⟨false, prNormal, "T1", "T2", "T3", none, none⟩ sampleTx
        emptyDB).response = .ok res ∧
      List.lookup "success" res = some (.vbool true) ∧
      List.lookup "riskScore" res = some (.vfloat 0.1) ∧
      List.lookup "label" res = some (.vstr "normal") ∧
      List.lookup "alertRegistered" res = some (.vbool false) ∧
      List.lookup "signatureHash" res = some Value.vnull :=
  oracle_unavailable_fallback prNormal "T1" "T2" "T3" none sampleTx emptyDB

/-- Witness for the amended C7 at a concrete call with default gas fields. -/
theorem gas_defaults_in_context_witness :
    List.lookup "gas_price" (txData envNormW sampleTx) = some (optFloat sampleTx.gas_price) ∧
    List.lookup "gas_used" (txData envNormW sampleTx) = some (optInt sampleTx.gas_used) ∧
    List.lookup "gas_price" (txData envNormW
      { txHash := sampleTx.txHash, from_address := sampleTx.from_address,
        to_address := sampleTx.to_address, amount := sampleTx.amount }) =
      some (.vfloat 50) ∧
    List.lookup "gas_used" (txData envNormW
      { txHash := sampleTx.txHash, from_address := sampleTx.from_address,
        to_address := sampleTx.to_address, amount := sampleTx.amount }) =
      some (.vint 21000) ∧
    List.lookup "gas_price" (txRecord envNormW sampleTx) = none ∧
    List.lookup "gasPrice" (txRecord envNormW sampleTx) = none ∧
    List.lookup "gas_used" (txRecord envNormW sampleTx) = none ∧
    List.lookup "gasUsed" (txRecord envNormW sampleTx) = none :=
  gas_defaults_in_context envNormW sampleTx

/-- Witness for C8 at the concrete 100-transaction store. -/
theorem get_statistics_accuracy_witness :
    (get_statistics db100 true).totalTx = db100.transactions.length ∧
    (get_statistics db100 true).fraudDetected =
      (db100.transactions.filter labelIsSuspicious).length ∧
    (get_statistics db100 true).activeAlerts = (db100.alerts.filter statusIsActive).length ∧
    (get_statistics db100 true).accuracy =
      (if 0 < db100.transactions.length then
        pyRound2 ((((db100.transactions.length : ℚ) -
          ((db100.transactions.filter labelIsSuspicious).length : ℚ)) /
            (db100.transactions.length : ℚ)) * 100)
      else 0) ∧
    get_statistics db100 true = ⟨100, 5, 95, 0⟩ ∧
    get_statistics emptyDB true = ⟨0, 0, 0, 0⟩ :=
  get_statistics_accuracy db100

/-- Witness for C9 at the concrete 100-transaction store. -/
theorem get_statistics_read_failure_witness :
    get_statistics db100 false = ⟨0, 0, 0, 0⟩ ∧
    get_statistics db100 false = get_statistics emptyDB true :=
  get_statistics_read_failure db100

end ChainGuardian
